import Mathlib

/-
Shallow embedding of cypress-junit-reporter (src/index.js) in Lean 4.

The JavaScript source is modelled as follows:
- JavaScript runtime faults (TypeError on property access of undefined,
  ReferenceError on an undefined identifier) are modelled with `Except JsErr`.
- A possibly-undefined JavaScript value is modelled with `Option`.
- Millisecond durations and numeric counters are modelled as rationals
  (counts that feed JavaScript truthiness tests are naturals).
- External collaborators excluded by the design (the strip-ansi library, the
  md5 library, the wall clock, and the filesystem) are passed in as explicit
  parameters: `stripAnsi : String → String`, `md5 : String → String`,
  `nowIso : String` (the value of new Date().toISOString()), and an
  `FSBehavior` record that injects the outcome of mkdirp.sync and
  fs.writeFileSync.
Each definition cites the line range of src/index.js it embeds.
-/

/-- JavaScript runtime faults that the source can raise. -/
inductive JsErr where
  | typeError (msg : String)
  | refError (msg : String)
  | fsError (msg : String)
deriving DecidableEq, Repr

/-- Value of an XML attribute as assigned by the source: a string, a number,
or the JavaScript undefined value (when the source reads a missing field). -/
inductive AttrVal where
  | str (s : String)
  | num (q : ℚ)
  | undef
deriving DecidableEq, Repr

/-- Per-test timing record: `test.timings` with its optional
`wallClockDuration` field (milliseconds). -/
structure Timings where
  wallClockDuration : Option ℚ
deriving DecidableEq, Repr

/-- One test result. `title` is the ordered pair (suite name, test name),
matching `test.title[0]` and `test.title[1]`; `timings` is optional because
the source dereferences `test.timings.wallClockDuration` without a guard. -/
structure Test where
  title : String × String
  state : String
  error : Option String
  timings : Option Timings
deriving DecidableEq, Repr

/-- The `stats` record of a run (src/index.js lines 137-139). -/
structure RunStats where
  failures : ℚ
  wallClockDuration : ℚ
  pending : Nat
deriving DecidableEq, Repr

/-- One run (a suite in output terms). `parents` is the ancestor chain walked
by fullSuiteTitle, innermost parent first, each entry (root flag, title). -/
structure Run where
  title : String
  root : Bool
  parents : List (Bool × String)
  file : Option String
  tests : List Test
  stats : RunStats
deriving DecidableEq, Repr

/-- Reporter options as normalised by the constructor (lines 194-204).
`useFullSuiteTitle` is read by getTestsuiteData although the constructor
never sets it, so it is an ordinary boolean here. -/
structure Options where
  mochaFile : String
  properties : Option (List (String × String))
  toConsole : Bool
  testCaseSwitchClassnameAndName : Bool
  suiteTitleSeparatedBy : String
  rootSuiteTitle : String
  testsuitesTitle : String
  useFullSuiteTitle : Bool
deriving DecidableEq, Repr

/-- The view getXml takes of its first argument (lines 128-156): every field
read off `cypressReport`, each possibly undefined. When flush miscalls
getXml with the junitSuites array in this position, every field reads as
undefined (all none). -/
structure ReportView where
  totalDuration : Option ℚ
  totalTests : Option ℚ
  runs : Option (List Run)
  totalFailed : Option ℚ
  totalPending : Option ℚ
deriving DecidableEq, Repr

/-- Attribute record of a testcase node (lines 40-46). -/
structure TestcaseAttr where
  name : String
  time : AttrVal
  classname : String
deriving DecidableEq, Repr

/-- Children pushed onto a testcase node: the failure node of lines 50-55,
or the empty skipped marker of line 224. -/
inductive TestcaseChild where
  | failure (message : String) (cdata : String)
  | skipped
deriving DecidableEq, Repr

/-- The config object built by getTestcaseData: the `_attr` record at index 0
of the testcase array, followed by any pushed children. -/
structure TestcaseConfig where
  attr : TestcaseAttr
  children : List TestcaseChild
deriving DecidableEq, Repr

/-- Attribute record of a testsuite node, as built by getTestsuiteData
(lines 104-114) and patched by getXml (lines 137-143). Fields patched later
start out absent. -/
structure TestsuiteAttr where
  name : String
  timestamp : String
  tests : Nat
  file : Option String
  failures : Option ℚ
  time : Option ℚ
  skipped : Option Nat
deriving DecidableEq, Repr

/-- Children of a testsuite node after the `_attr` record: the optional
properties block, then testcase wrappers pushed by generate. -/
inductive SuiteChild where
  | properties (ps : List (String × String))
  | testcase (tc : TestcaseConfig)
deriving DecidableEq, Repr

/-- One element of the junitSuites array: the testsuite array with its
`_attr` record (always at index 0) separated from the later children. -/
structure TestsuiteWrap where
  attr : TestsuiteAttr
  children : List SuiteChild
deriving DecidableEq, Repr

/-- Root testsuites attribute record (lines 146-153). -/
structure RootAttr where
  name : String
  time : Option ℚ
  tests : Option ℚ
  failures : Option ℚ
  skipped : Option ℚ
deriving DecidableEq, Repr

/-- Injected outcomes of the two filesystem primitives used by
writeXmlToDisk: mkdirp.sync (line 171) and fs.writeFileSync (line 174). -/
structure FSBehavior where
  mkdirpError : Option JsErr
  writeError : Option JsErr
deriving DecidableEq, Repr

/-- Ambient collaborators of the reporter, passed explicitly. -/
structure World where
  stripAnsi : String → String
  nowIso : String
  md5 : String → String
  fsb : FSBehavior
  mochaFileExists : Bool

/-- INVALID_CHARACTERS (line 8): the ESC character. -/
def INVALID_CHARACTERS : List Char := ['\x1b']

/-- One step of the reduce in removeInvalidCharacters (line 31):
text.replace(new RegExp(c, g-flag), empty string) removes every occurrence
of the character c. -/
def jsCharRemoveAll (s : String) (c : Char) : String :=
  (s.toList.filter (fun a => a != c)).asString

/-- The same replace step applied to a possibly-undefined receiver: calling
.replace on undefined raises a TypeError. -/
def jsReplaceStep (text : Option String) (c : Char) : Except JsErr (Option String) :=
  match text with
  | none => Except.error (JsErr.typeError "Cannot read properties of undefined while reading replace")
  | some s => Except.ok (some (jsCharRemoveAll s c))

/-- removeInvalidCharacters (lines 29-33): reduce over INVALID_CHARACTERS
starting from the raw input, which the source never checks for undefined. -/
def removeInvalidCharacters (input : Option String) : Except JsErr (Option String) :=
  INVALID_CHARACTERS.foldlM jsReplaceStep input

/-- removeInvalidCharacters restricted to an actual string input, where no
step can fault (lines 29-33 on the happy path). -/
def removeInvalidCharactersStr (s : String) : String :=
  INVALID_CHARACTERS.foldl jsCharRemoveAll s

/-- Time attribute of a testcase (line 43): the raw value of
test.timings.wallClockDuration, undefined when the field is missing. -/
def testcaseTime (tm : Timings) : AttrVal :=
  match tm.wallClockDuration with
  | none => AttrVal.undef
  | some q => AttrVal.num q

/-- The `_attr` record and empty child list built at lines 39-47, given that
test.timings dereferenced successfully. -/
def testcaseBase (sA : String → String) (test : Test) (opts : Options) (tm : Timings) : TestcaseConfig :=
  { attr :=
      { name := if opts.testCaseSwitchClassnameAndName then sA test.title.1 else sA test.title.2
      , time := testcaseTime tm
      , classname := if opts.testCaseSwitchClassnameAndName then sA test.title.2 else sA test.title.1 }
  , children := [] }

/-- The push of the failure node at lines 50-55: message holds the raw error
string, the CDATA body holds the error passed through
removeInvalidCharacters. -/
def withFailure (cfg : TestcaseConfig) (e : String) : TestcaseConfig :=
  { cfg with children := cfg.children ++ [TestcaseChild.failure e (removeInvalidCharactersStr e)] }

/-- getTestcaseData (lines 35-58). The options parameter is an Option because
generate invokes this function without it (lines 219, 222, 228), which makes
line 36 fault; the guard `if (err)` at line 49 is JavaScript truthiness, so
an empty error string adds no failure child. -/
def getTestcaseData (sA : String → String) (test : Test) (err : Option String) (options : Option Options) : Except JsErr TestcaseConfig :=
  match options with
  | none => Except.error (JsErr.typeError "Cannot read properties of undefined while reading testCaseSwitchClassnameAndName")
  | some opts =>
    match test.timings with
    | none => Except.error (JsErr.typeError "Cannot read properties of undefined while reading wallClockDuration")
    | some tm =>
      match err with
      | none => Except.ok (testcaseBase sA test opts tm)
      | some e =>
        if e = "" then Except.ok (testcaseBase sA test opts tm)
        else Except.ok (withFailure (testcaseBase sA test opts tm) e)

/-- fullSuiteTitle (lines 60-74). The while loop unshifts each ancestor title
(outermost ends up first), replacing an empty root title by
options.rootSuiteTitle; the result is joined with
options.suiteTitleSeparatedBy and passed through stripAnsi. When options is
undefined (as in the only call site, line 105) the property reads on options
fault. -/
def fullSuiteTitle (sA : String → String) (suite : Run) (options : Option Options) : Except JsErr String :=
  match options with
  | none => Except.error (JsErr.typeError "Cannot read properties of undefined while reading suiteTitleSeparatedBy")
  | some o =>
    Except.ok (sA (String.intercalate o.suiteTitleSeparatedBy
      ((suite.parents.map (fun p => if p.1 && p.2 = "" then o.rootSuiteTitle else p.2)).reverse ++ [suite.title])))

/-- defaultSuiteTitle (lines 93-98). For the implicit root suite it reads
options.rootSuiteTitle, which faults when options is undefined (as in the
only call site, line 105). -/
def defaultSuiteTitle (sA : String → String) (suite : Run) (options : Option Options) : Except JsErr String :=
  if suite.root && suite.title = "" then
    match options with
    | none => Except.error (JsErr.typeError "Cannot read properties of undefined while reading rootSuiteTitle")
    | some o => Except.ok (sA o.rootSuiteTitle)
  else Except.ok (sA suite.title)

/-- generateProperties (lines 76-91): one (name, value) pair per own entry of
options.properties, in iteration order; a null properties value yields no
pairs. -/
def generateProperties (o : Options) : List (String × String) :=
  match o.properties with
  | none => []
  | some ps => ps

/-- timestamp attribute (line 106): toISOString().slice(0, -5) drops the
final five characters (the .sssZ fragment). -/
def jsSliceDropLast5 (s : String) : String :=
  (s.toList.take (s.toList.length - 5)).asString

/-- The `_attr` record built at lines 103-114, including the conditional
file attribute (line 113, JavaScript truthiness on suite.file). -/
def mkTestsuiteAttr (nowIso : String) (suite : Run) (name : String) : TestsuiteAttr :=
  { name := name
  , timestamp := jsSliceDropLast5 nowIso
  , tests := suite.tests.length
  , file := match suite.file with
            | none => none
            | some f => if f = "" then none else some f
  , failures := none
  , time := none
  , skipped := none }

/-- Children appended at lines 117-122: the properties block, only when the
generated list is nonempty. -/
def testsuiteChildren (o : Options) : List SuiteChild :=
  if (generateProperties o).length = 0 then [] else [SuiteChild.properties (generateProperties o)]

/-- getTestsuiteData (lines 100-125). Line 105 selects the title policy from
the options parameter, but passes no options along to fullSuiteTitle and
defaultSuiteTitle, so those calls see undefined options. -/
def getTestsuiteData (sA : String → String) (nowIso : String) (suite : Run) (options : Option Options) : Except JsErr TestsuiteWrap :=
  match options with
  | none => Except.error (JsErr.typeError "Cannot read properties of undefined while reading useFullSuiteTitle")
  | some o =>
    match (if o.useFullSuiteTitle then fullSuiteTitle sA suite none else defaultSuiteTitle sA suite none) with
    | Except.error e => Except.error e
    | Except.ok name => Except.ok { attr := mkTestsuiteAttr nowIso suite name, children := testsuiteChildren o }

/-- The stats patch applied to one testsuite attribute record at lines
137-143: failures and time are set to the raw stats values, skipped is set to
stats.pending and deleted again when falsy (zero). -/
def patchApply (run : Run) (s : TestsuiteWrap) : TestsuiteWrap :=
  { s with attr :=
      { s.attr with
        failures := some run.stats.failures
      , time := some run.stats.wallClockDuration
      , skipped := if run.stats.pending = 0 then none else some run.stats.pending } }

/-- One iteration of the forEach at lines 131-144: the body reads
cypressReport.runs[index] and then its stats field, faulting when runs is
undefined or has no element at the index. -/
def patchOne (runs : Option (List Run)) (i : Nat) (s : TestsuiteWrap) : Except JsErr TestsuiteWrap :=
  match runs with
  | none => Except.error (JsErr.typeError "Cannot read properties of undefined while reading index")
  | some rs =>
    match rs.get? i with
    | none => Except.error (JsErr.typeError "Cannot read properties of undefined while reading stats")
    | some run => Except.ok (patchApply run s)

/-- The forEach of lines 131-144 from index i on; a run that faults stops the
loop with that fault. -/
def patchSuitesAux (runs : Option (List Run)) : Nat → List TestsuiteWrap → Except JsErr (List TestsuiteWrap)
  | _, [] => Except.ok []
  | i, s :: rest =>
    match patchOne runs i s with
    | Except.error e => Except.error e
    | Except.ok p =>
      match patchSuitesAux runs (i + 1) rest with
      | Except.error e => Except.error e
      | Except.ok ps => Except.ok (p :: ps)

/-- The whole stats-patch pass of getXml (lines 131-144). -/
def patchSuites (runs : Option (List Run)) (suites : List TestsuiteWrap) : Except JsErr (List TestsuiteWrap) :=
  patchSuitesAux runs 0 suites

/-- The rootSuite attribute record built at lines 146-153: name from
options.testsuitesTitle, time is the total duration passed through
unconverted, tests and failures are the report totals; skipped is not set
here. -/
def rootSuiteAttr (rv : ReportView) (o : Options) : RootAttr :=
  { name := o.testsuitesTitle
  , time := rv.totalDuration
  , tests := rv.totalTests
  , failures := rv.totalFailed
  , skipped := none }

/-- getXml (lines 127-162). After the patch pass and the rootSuite record,
line 155 evaluates stats.pending where no identifier stats exists in any
enclosing scope, so the function raises ReferenceError before reaching the
xml serialisation call at line 159; the junitSuites parameter is an Option
because flush passes only one argument, leaving it undefined, and line 131
then faults on its forEach. -/
def getXml (cypressReport : ReportView) (junitSuites : Option (List TestsuiteWrap)) (options : Option Options) : Except JsErr String :=
  match junitSuites with
  | none => Except.error (JsErr.typeError "Cannot read properties of undefined while reading forEach")
  | some suites =>
    match patchSuites cypressReport.runs suites with
    | Except.error e => Except.error e
    | Except.ok _patched =>
      match options with
      | none => Except.error (JsErr.typeError "Cannot read properties of undefined while reading testsuitesTitle")
      | some o =>
        let _rootSuite := rootSuiteAttr cypressReport o
        Except.error (JsErr.refError "stats is not defined")

/-- Substitution of the md5 digest into the output path (lines 166-168):
String.replace with a string pattern replaces only the first occurrence. -/
def hasSubstrL (pat : List Char) : List Char → Bool
  | [] => pat.isEmpty
  | c :: rest => pat.isPrefixOf (c :: rest) || hasSubstrL pat rest

/-- Replace the first occurrence of pat in the third argument by repl,
leaving the text unchanged when pat does not occur. -/
def replaceFirstL (pat repl : List Char) : List Char → List Char
  | [] => []
  | c :: rest =>
    if pat.isPrefixOf (c :: rest) then repl ++ (c :: rest).drop pat.length
    else c :: replaceFirstL pat repl rest

/-- JavaScript filePath.replace(pattern-string, repl): first occurrence only. -/
def jsReplaceFirst (s pat repl : String) : String :=
  (replaceFirstL pat.toList repl.toList s.toList).asString

/-- The destination path after the conditional hash substitution of lines
166-168. -/
def hashedPath (md5 : String → String) (xmlStr filePath : String) : String :=
  if hasSubstrL "[hash]".toList filePath.toList then jsReplaceFirst filePath "[hash]" (md5 xmlStr)
  else filePath

/-- writeXmlToDisk (lines 164-180). The guard is JavaScript truthiness on
filePath; mkdirp.sync at line 171 runs outside any try block, so its fault
propagates; fs.writeFileSync at line 174 is wrapped in try/catch, so its
fault is logged and swallowed and nothing is written. The result records the
(path, content) pair actually written, if any. -/
def writeXmlToDisk (md5 : String → String) (fsb : FSBehavior) (xmlStr : String) (filePath : String) : Except JsErr (Option (String × String)) :=
  if filePath = "" then Except.ok none
  else
    match fsb.mkdirpError with
    | some e => Except.error e
    | none =>
      match fsb.writeError with
      | some _ => Except.ok none
      | none => Except.ok (some (hashedPath md5 xmlStr filePath, xmlStr))

/-- flush (lines 182-190). Line 183 invokes getXml with the single argument
junitSuites, so inside getXml the cypressReport parameter holds the
junitSuites array (every report field reads as undefined) and the
junitSuites and options parameters are undefined. Only if that call returned
would the xml be written and optionally echoed. -/
def flush (w : World) (_cypressReport : List Run) (_junitSuites : List TestsuiteWrap) (options : Options) : Except JsErr Unit :=
  match getXml { totalDuration := none, totalTests := none, runs := none, totalFailed := none, totalPending := none } none none with
  | Except.error e => Except.error e
  | Except.ok xmlStr =>
    match writeXmlToDisk w.md5 w.fsb xmlStr options.mochaFile with
    | Except.error e => Except.error e
    | Except.ok _ => Except.ok ()

/-- Append a testcase wrapper to the testsuite array of the suite pushed
last, as lastSuite(junitSuites).push does at lines 219, 225 and 228. -/
def appendTestcase (ts : TestsuiteWrap) (tc : TestcaseConfig) : TestsuiteWrap :=
  { ts with children := ts.children ++ [SuiteChild.testcase tc] }

/-- The skipped marker pushed at line 224 for a pending test. -/
def appendSkipped (tc : TestcaseConfig) : TestcaseConfig :=
  { tc with children := tc.children ++ [TestcaseChild.skipped] }

/-- The state dispatch of lines 217-230 for one test. Every branch calls
getTestcaseData without its options argument; a state other than passed,
pending or failed adds nothing. -/
def processTest (sA : String → String) (acc : TestsuiteWrap) (test : Test) : Except JsErr TestsuiteWrap :=
  if test.state = "passed" then
    match getTestcaseData sA test none none with
    | Except.error e => Except.error e
    | Except.ok tc => Except.ok (appendTestcase acc tc)
  else if test.state = "pending" then
    match getTestcaseData sA test none none with
    | Except.error e => Except.error e
    | Except.ok tc => Except.ok (appendTestcase acc (appendSkipped tc))
  else if test.state = "failed" then
    match getTestcaseData sA test test.error none with
    | Except.error e => Except.error e
    | Except.ok tc => Except.ok (appendTestcase acc tc)
  else Except.ok acc

/-- The inner forEach of lines 217-230 over the tests of one run. -/
def processTests (sA : String → String) (acc : TestsuiteWrap) : List Test → Except JsErr TestsuiteWrap
  | [] => Except.ok acc
  | t :: rest =>
    match processTest sA acc t with
    | Except.error e => Except.error e
    | Except.ok acc2 => processTests sA acc2 rest

/-- One iteration of the outer forEach of lines 214-231: push the testsuite
built by getTestsuiteData (with the real options), then process its tests. -/
def processRun (sA : String → String) (nowIso : String) (opts : Options) (run : Run) : Except JsErr TestsuiteWrap :=
  match getTestsuiteData sA nowIso run (some opts) with
  | Except.error e => Except.error e
  | Except.ok ts => processTests sA ts run.tests

/-- The whole junitSuites construction of lines 214-231, one wrapper per run
in report order. -/
def aggregateSuites (sA : String → String) (nowIso : String) (opts : Options) : List Run → Except JsErr (List TestsuiteWrap)
  | [] => Except.ok []
  | r :: rest =>
    match processRun sA nowIso opts r with
    | Except.error e => Except.error e
    | Except.ok ts =>
      match aggregateSuites sA nowIso opts rest with
      | Except.error e => Except.error e
      | Except.ok tss => Except.ok (ts :: tss)

/-- generate (lines 206-234). When the report file already exists, line 210
calls debug, an identifier defined nowhere in the module, raising
ReferenceError; otherwise the suites are aggregated and flushed. The report
argument is the array the source iterates with cypressReport.forEach. -/
def generate (w : World) (options : Options) (cypressReport : List Run) : Except JsErr Unit :=
  match w.mochaFileExists with
  | true => Except.error (JsErr.refError "debug is not defined")
  | false =>
    match aggregateSuites w.stripAnsi w.nowIso options cypressReport with
    | Except.error e => Except.error e
    | Except.ok junitSuites => flush w cypressReport junitSuites options

/-- Count of testcase children of a testsuite wrapper. -/
def numTestcaseChildren (ts : TestsuiteWrap) : Nat :=
  (ts.children.filter (fun ch => match ch with
    | SuiteChild.testcase _ => true
    | _ => false)).length

/-- Default options, as the constructor produces them for an empty options
object with no environment overrides (lines 194-204). -/
def defaultOptions : Options :=
  { mochaFile := "test-results.xml"
  , properties := none
  , toConsole := false
  , testCaseSwitchClassnameAndName := false
  , suiteTitleSeparatedBy := " "
  , rootSuiteTitle := "Root Suite"
  , testsuitesTitle := "Mocha Tests"
  , useFullSuiteTitle := false }

/-- A passed test with a 150 ms wall-clock duration. -/
def test150 : Test :=
  { title := ("Suite A", "does X")
  , state := "passed"
  , error := none
  , timings := some { wallClockDuration := some 150 } }

/-- A test whose timings record carries no wallClockDuration. -/
def testNoDur : Test :=
  { title := ("Suite A", "does Y")
  , state := "passed"
  , error := none
  , timings := some { wallClockDuration := none } }

/-- A test with a state outside passed, pending and failed. -/
def testUnknown : Test :=
  { title := ("Suite B", "does Z")
  , state := "flaky"
  , error := none
  , timings := some { wallClockDuration := some 1 } }

/-- The testcase config getTestcaseData builds from test150 with no error. -/
def cfg150 : TestcaseConfig :=
  { attr := { name := "does X", time := AttrVal.num 150, classname := "Suite A" }
  , children := [] }

/-- A run whose stats hold a 2000 ms wall-clock duration and 2 pending. -/
def run2000 : Run :=
  { title := "Suite A"
  , root := false
  , parents := []
  , file := none
  , tests := [test150]
  , stats := { failures := 1, wallClockDuration := 2000, pending := 2 } }

/-- A run with one passed test. -/
def runPassed : Run :=
  { title := "Suite A"
  , root := false
  , parents := []
  , file := none
  , tests := [test150]
  , stats := { failures := 0, wallClockDuration := 1000, pending := 0 } }

/-- A run whose single test has an unrecognised state. -/
def runUnknown : Run :=
  { title := "Suite B"
  , root := false
  , parents := []
  , file := none
  , tests := [testUnknown]
  , stats := { failures := 0, wallClockDuration := 5, pending := 0 } }

/-- An unpatched testsuite wrapper as getTestsuiteData builds it. -/
def ts0 : TestsuiteWrap :=
  { attr :=
      { name := "Suite A"
      , timestamp := "2024-05-06T07:08:09"
      , tests := 1
      , file := none
      , failures := none
      , time := none
      , skipped := none }
  , children := [] }

/-- A concrete toISOString value. -/
def nowDemo : String := "2024-05-06T07:08:09.123Z"

/-- The testcase config getTestcaseData builds from test150 with the error
string containing an ESC character. -/
def cfgFail : TestcaseConfig :=
  { attr := { name := "does X", time := AttrVal.num 150, classname := "Suite A" }
  , children := [TestcaseChild.failure "bo\x1Bom" "boom"] }

/-- A concrete report view whose runs line up with the suite list [ts0]. -/
def rvDemo : ReportView :=
  { totalDuration := some 5000
  , totalTests := some 2
  , runs := some [run2000]
  , totalFailed := some 1
  , totalPending := some 2 }

/-- The testsuite wrapper getTestsuiteData builds from runUnknown under the
default options at nowDemo. -/
def tsB : TestsuiteWrap :=
  { attr :=
      { name := "Suite B"
      , timestamp := "2024-05-06T07:08:09"
      , tests := 1
      , file := none
      , failures := none
      , time := none
      , skipped := none }
  , children := [] }

/-- Index-wise description of the stats-patch loop: when the loop starting at
index i succeeds, output j is input j patched with run (i + j). -/
theorem patchSuitesAux_ok_get (runs : List Run) :
    ∀ (suites : List TestsuiteWrap) (i : Nat) (out : List TestsuiteWrap),
      patchSuitesAux (some runs) i suites = Except.ok out →
      ∀ (j : Nat) (hj : j < out.length), ∃ run, runs.get? (i + j) = some run ∧
        ∃ (hs : j < suites.length), out.get ⟨j, hj⟩ = patchApply run (suites.get ⟨j, hs⟩) := by
  intro suites
  induction suites with
  | nil =>
    intro i out h j hj
    simp only [patchSuitesAux] at h
    cases h
    simp at hj
  | cons s rest ih =>
    intro i out h j hj
    simp only [patchSuitesAux] at h
    cases hp : patchOne (some runs) i s with
    | error e => rw [hp] at h; cases h
    | ok p =>
      rw [hp] at h
      cases ha : patchSuitesAux (some runs) (i + 1) rest with
      | error e => rw [ha] at h; cases h
      | ok ps =>
        rw [ha] at h
        cases h
        simp only [patchOne] at hp
        cases hg : runs.get? i with
        | none => rw [hg] at hp; cases hp
        | some run =>
          rw [hg] at hp
          cases hp
          cases j with
          | zero =>
            refine ⟨run, ?_, ?_⟩
            · simpa using hg
            · exact ⟨Nat.succ_pos _, rfl⟩
          | succ j2 =>
            have hj2 : j2 < ps.length := by simpa using hj
            obtain ⟨run2, hrun2, hs2, hout2⟩ := ih (i + 1) ps ha j2 hj2
            refine ⟨run2, ?_, ?_⟩
            · have : i + 1 + j2 = i + (j2 + 1) := by omega
              rw [← this]; exact hrun2
            · exact ⟨Nat.succ_lt_succ hs2, hout2⟩

/-- Claim C1: false on the code. generate never completes normally: for every
report, every option record and every environment, it propagates a JavaScript
fault (the flush path always raises because getXml is invoked with a single
argument, and earlier faults can fire before that). The claim that generate
never throws is therefore contradicted on every input. -/
theorem generate_always_raises (w : World) (options : Options) (cypressReport : List Run) :
    ∃ e, generate w options cypressReport = Except.error e := by
  unfold generate
  cases w.mochaFileExists with
  | true => exact ⟨JsErr.refError "debug is not defined", rfl⟩
  | false =>
    cases h : aggregateSuites w.stripAnsi w.nowIso options cypressReport with
    | error e => exact ⟨e, rfl⟩
    | ok js =>
      exact ⟨JsErr.typeError "Cannot read properties of undefined while reading forEach", rfl⟩

/-- Claim C2 counterexample: for the passed test with a 150 ms duration, the
built testcase carries time 150, the raw millisecond value, not 150 / 1000
seconds; and when wallClockDuration is absent the time attribute is the
undefined value, not the number 0. -/
theorem testcase_time_not_seconds_counterexample :
    (getTestcaseData id test150 none (some defaultOptions)).map (fun c => c.attr.time)
        = Except.ok (AttrVal.num 150)
    ∧ (150 : ℚ) ≠ 150 / 1000
    ∧ (getTestcaseData id testNoDur none (some defaultOptions)).map (fun c => c.attr.time)
        = Except.ok AttrVal.undef
    ∧ AttrVal.undef ≠ AttrVal.num 0 := by
  refine ⟨rfl, by norm_num, rfl, ?_⟩
  intro h
  exact AttrVal.noConfusion h

/-- Claim C2 amended: whenever getTestcaseData returns a node, its time
attribute is the raw millisecond value of test.timings.wallClockDuration,
with no division by 1000; when the wallClockDuration field is absent the
attribute is the JavaScript undefined value rather than 0. -/
theorem testcase_time_raw_milliseconds :
    (∀ (sA : String → String) (t : Test) (e : Option String) (o : Options) (q : ℚ)
        (cfg : TestcaseConfig),
        t.timings = some { wallClockDuration := some q } →
        getTestcaseData sA t e (some o) = Except.ok cfg →
        cfg.attr.time = AttrVal.num q)
    ∧ (∀ (sA : String → String) (t : Test) (e : Option String) (o : Options)
        (cfg : TestcaseConfig),
        t.timings = some { wallClockDuration := none } →
        getTestcaseData sA t e (some o) = Except.ok cfg →
        cfg.attr.time = AttrVal.undef) := by
  constructor
  · intro sA t e o q cfg htm h
    simp only [getTestcaseData, htm] at h
    split at h
    · cases h; rfl
    · split at h
      · cases h; rfl
      · cases h; rfl
  · intro sA t e o cfg htm h
    simp only [getTestcaseData, htm] at h
    split at h
    · cases h; rfl
    · split at h
      · cases h; rfl
      · cases h; rfl

/-- Claim C2 witness: the amended statement applied to the concrete passed
test with a 150 ms duration. -/
theorem testcase_time_raw_milliseconds_witness : cfg150.attr.time = AttrVal.num 150 :=
  testcase_time_raw_milliseconds.1 id test150 none defaultOptions 150 cfg150 rfl rfl

/-- Claim C3 counterexample: patching the suite whose stats hold a 2000 ms
wall-clock duration stores time 2000 on the testsuite node, and 2000 is not
2000 / 1000, so the patched value is the raw millisecond value the claim
rules out. -/
theorem suite_time_not_seconds_counterexample :
    patchSuites (some [run2000]) [ts0] = Except.ok [patchApply run2000 ts0]
    ∧ (patchApply run2000 ts0).attr.time = some 2000
    ∧ (2000 : ℚ) ≠ 2000 / 1000 := by
  refine ⟨rfl, rfl, by norm_num⟩

/-- Claim C3 amended: the stats patch stores the raw stats.wallClockDuration
of the positionally corresponding run as the testsuite time, with no division
by 1000, while the root testsuites record receives the report totalDuration
unconverted; the conversion asymmetry claimed between the two levels does not
exist, both are raw. -/
theorem suite_time_raw_milliseconds :
    (∀ (runs : List Run) (suites out : List TestsuiteWrap),
        patchSuites (some runs) suites = Except.ok out →
        ∀ (j : Nat) (hj : j < out.length), ∃ run, runs.get? j = some run ∧
          (out.get ⟨j, hj⟩).attr.time = some run.stats.wallClockDuration)
    ∧ (∀ (rv : ReportView) (o : Options), (rootSuiteAttr rv o).time = rv.totalDuration) := by
  constructor
  · intro runs suites out h j hj
    obtain ⟨run, hrun, hs, hout⟩ := patchSuitesAux_ok_get runs suites 0 out h j hj
    refine ⟨run, by simpa using hrun, ?_⟩
    rw [hout]
    rfl
  · intro rv o
    rfl

/-- Claim C3 witness: the amended statement applied to the single concrete
run with a 2000 ms duration. -/
theorem suite_time_raw_milliseconds_witness :
    ([patchApply run2000 ts0].get ⟨0, Nat.one_pos⟩).attr.time = some 2000 := by
  obtain ⟨run, hrun, htime⟩ :=
    suite_time_raw_milliseconds.1 [run2000] [ts0] [patchApply run2000 ts0] rfl 0 Nat.one_pos
  have hr : run = run2000 := by
    have : ([run2000].get? 0) = some run2000 := rfl
    rw [this] at hrun
    exact (Option.some.injEq _ _).mp hrun.symm
  rw [hr] at htime
  exact htime

/-- Claim C4 counterexample: a failed test whose error string is empty gets
no failure child at all, because the guard at line 49 tests JavaScript
truthiness and the empty string is falsy; the claim asserts a failure child
with message equal to the error string for every failed test. -/
theorem empty_error_no_failure_child_counterexample :
    getTestcaseData id test150 (some "") (some defaultOptions) = Except.ok cfg150
    ∧ cfg150.children = [] :=
  ⟨rfl, rfl⟩

/-- Claim C4 amended: for every failed test with a non-empty error string e,
the built node carries exactly one failure child whose message attribute is e
unmodified and whose CDATA body is e with every ESC character removed; when
the error string is empty the node carries no failure child. -/
theorem failure_child_raw_message_escaped_body :
    (∀ (sA : String → String) (t : Test) (e : String) (o : Options) (cfg : TestcaseConfig),
        e ≠ "" →
        getTestcaseData sA t (some e) (some o) = Except.ok cfg →
        cfg.children = [TestcaseChild.failure e (removeInvalidCharactersStr e)]
        ∧ (removeInvalidCharactersStr e).toList = e.toList.filter (fun a => a != '\x1b'))
    ∧ (∀ (sA : String → String) (t : Test) (o : Options) (cfg : TestcaseConfig),
        getTestcaseData sA t (some "") (some o) = Except.ok cfg →
        cfg.children = []) := by
  constructor
  · intro sA t e o cfg hne h
    simp only [getTestcaseData] at h
    split at h
    · cases h
    · split at h
      · rename_i hs
        exact absurd hs hne
      · cases h
        exact ⟨rfl, rfl⟩
  · intro sA t o cfg h
    simp only [getTestcaseData] at h
    split at h
    · cases h
    · split at h
      · cases h; rfl
      · rename_i hs
        exact absurd trivial hs

/-- Claim C4 witness: the amended statement applied to the concrete error
string with an embedded ESC character. -/
theorem failure_child_raw_message_escaped_body_witness :
    cfgFail.children = [TestcaseChild.failure "bo\x1Bom" (removeInvalidCharactersStr "bo\x1Bom")]
    ∧ (removeInvalidCharactersStr "bo\x1Bom").toList
        = "bo\x1Bom".toList.filter (fun a => a != '\x1b') :=
  failure_child_raw_message_escaped_body.1 id test150 "bo\x1Bom" defaultOptions cfgFail
    (by decide) rfl

/-- Claim C5: the per-suite rule of lines 137-143 does hold, but the root
rule can never apply: after the patch loop succeeds and the rootSuite record
is built, line 155 evaluates stats.pending where stats is an undefined
identifier, so getXml raises ReferenceError for every input (here a report
with two pending tests) instead of ever setting the root skipped attribute. -/
theorem root_skipped_unreachable_refError :
    getXml rvDemo (some [ts0]) (some defaultOptions)
      = Except.error (JsErr.refError "stats is not defined") := rfl

/-- Claim C6 counterexample: calling removeInvalidCharacters on an undefined
input raises a TypeError at the first reduce step, because the source calls
.replace on the raw input without a guard; the claim asserts a non-throwing
result for undefined input. -/
theorem sanitizer_undefined_counterexample :
    removeInvalidCharacters none
      = Except.error (JsErr.typeError "Cannot read properties of undefined while reading replace") :=
  rfl

/-- Claim C6 amended: on every actual string input, including the empty
string, removeInvalidCharacters is total and pure and returns a string (the
input with every ESC character removed, the empty string for empty input);
an undefined input raises a TypeError. -/
theorem sanitizer_total_on_strings :
    (∀ s : String, removeInvalidCharacters (some s) = Except.ok (some (removeInvalidCharactersStr s)))
    ∧ removeInvalidCharacters (some "") = Except.ok (some "") :=
  ⟨fun _ => rfl, rfl⟩

/-- Claim C7: false on the code. For the report with one run containing one
passed test, even the junitSuites list is never completed: the state dispatch
calls getTestcaseData without its options argument, which raises a TypeError
at line 36, so an output with one testsuite node per run is never produced
(and flush would raise for every report that survives aggregation). -/
theorem aggregation_raises_on_recognised_state :
    aggregateSuites id nowDemo defaultOptions [runPassed]
      = Except.error (JsErr.typeError "Cannot read properties of undefined while reading testCaseSwitchClassnameAndName") :=
  rfl

/-- Claim C8: whenever the destination template contains the token [hash] and
writeXmlToDisk reports a written (path, content) pair, the content is exactly
the xml string passed in and the path is the template with the first [hash]
occurrence replaced by the digest of that same content. -/
theorem hash_replaced_with_digest_of_content (md5 : String → String) (fsb : FSBehavior)
    (xmlStr filePath p c : String)
    (hhash : hasSubstrL "[hash]".toList filePath.toList = true)
    (h : writeXmlToDisk md5 fsb xmlStr filePath = Except.ok (some (p, c))) :
    c = xmlStr ∧ p = jsReplaceFirst filePath "[hash]" (md5 c) := by
  simp only [writeXmlToDisk] at h
  split at h
  · simp at h
  · split at h
    · simp at h
    · split at h
      · simp at h
      · simp only [Except.ok.injEq, Option.some.injEq, Prod.mk.injEq] at h
        obtain ⟨hp, hc⟩ := h
        subst hc
        refine ⟨rfl, ?_⟩
        rw [← hp]
        simp only [hashedPath, hhash]
        rfl

/-- Claim C8 witness: a template with two [hash] tokens has only the first
replaced by the digest of the written content. -/
theorem hash_replaced_with_digest_of_content_witness :
    "<x/>" = "<x/>"
    ∧ "r/abc-[hash].xml" = jsReplaceFirst "r/[hash]-[hash].xml" "[hash]" ((fun _ => "abc") "<x/>") :=
  hash_replaced_with_digest_of_content (fun _ => "abc")
    { mkdirpError := none, writeError := none } "<x/>" "r/[hash]-[hash].xml"
    "r/abc-[hash].xml" "<x/>" (by decide) (by rfl)

/-- Claim C9 counterexample: a directory-creation fault is not caught, because
mkdirp.sync at line 171 runs outside the try block, so the Writer propagates
it instead of swallowing it; the claim asserts every filesystem error is
swallowed and generation reports success. -/
theorem fs_error_not_swallowed_counterexample :
    writeXmlToDisk (fun _ => "digest")
        { mkdirpError := some (JsErr.fsError "EACCES mkdir"), writeError := none }
        "<xml/>" "out/results.xml"
      = Except.error (JsErr.fsError "EACCES mkdir") := by
  rfl

/-- Claim C9 amended: only faults of the file write itself are caught,
logged and swallowed (writeXmlToDisk still reports success); a fault of
directory creation propagates out of the Writer whenever a destination path
is given. -/
theorem write_errors_swallowed_mkdirp_propagates :
    (∀ (md5 : String → String) (fsb : FSBehavior) (xmlStr filePath : String),
        fsb.mkdirpError = none →
        ∃ r, writeXmlToDisk md5 fsb xmlStr filePath = Except.ok r)
    ∧ (∀ (md5 : String → String) (fsb : FSBehavior) (xmlStr filePath : String) (e : JsErr),
        fsb.mkdirpError = some e → filePath ≠ "" →
        writeXmlToDisk md5 fsb xmlStr filePath = Except.error e) := by
  constructor
  · intro md5 fsb xmlStr filePath hmk
    unfold writeXmlToDisk
    by_cases hfp : filePath = ""
    · rw [if_pos hfp]
      exact ⟨none, rfl⟩
    · rw [if_neg hfp, hmk]
      cases hw : fsb.writeError with
      | some e2 => exact ⟨none, rfl⟩
      | none => exact ⟨some (hashedPath md5 xmlStr filePath, xmlStr), rfl⟩
  · intro md5 fsb xmlStr filePath e hmk hfp
    unfold writeXmlToDisk
    rw [if_neg hfp, hmk]

/-- Claim C9 witness: the amended statement applied to a concrete failing
directory creation. -/
theorem write_errors_swallowed_mkdirp_propagates_witness :
    writeXmlToDisk (fun _ => "d")
        { mkdirpError := some (JsErr.fsError "EPERM"), writeError := none } "<y/>" "d/f.xml"
      = Except.error (JsErr.fsError "EPERM") :=
  write_errors_swallowed_mkdirp_propagates.2 (fun _ => "d")
    { mkdirpError := some (JsErr.fsError "EPERM"), writeError := none } "<y/>" "d/f.xml"
    (JsErr.fsError "EPERM") rfl (by decide)

/-- Claim C10: the tests attribute is the length of the full test list of the
run (line 107), before any state filtering; and a run whose only test has an
unrecognised state yields a tests attribute of 1 with 0 testcase children,
so the attribute can exceed the child count. -/
theorem tests_attr_counts_all_tests (sA : String → String) (nowIso : String) (suite : Run)
    (o : Options) (ts : TestsuiteWrap)
    (h : getTestsuiteData sA nowIso suite (some o) = Except.ok ts) :
    ts.attr.tests = suite.tests.length
    ∧ (aggregateSuites id nowDemo defaultOptions [runUnknown]).map
        (fun l => l.map (fun t => (t.attr.tests, numTestcaseChildren t))) = Except.ok [(1, 0)] := by
  constructor
  · simp only [getTestsuiteData] at h
    split at h
    · cases h
    · cases h; rfl
  · rfl

/-- Claim C10 witness: the statement applied to the concrete run whose only
test has an unrecognised state. -/
theorem tests_attr_counts_all_tests_witness :
    tsB.attr.tests = runUnknown.tests.length
    ∧ (aggregateSuites id nowDemo defaultOptions [runUnknown]).map
        (fun l => l.map (fun t => (t.attr.tests, numTestcaseChildren t))) = Except.ok [(1, 0)] :=
  tests_attr_counts_all_tests id nowDemo runUnknown defaultOptions tsB rfl
